import Mathlib

/-!
Shallow embedding of the `flightaware` Python client
(`src/flightaware/client.py`) and proofs about its behavior.

Modelling conventions:
* A parsed JSON value (`r.json()`) is the inductive type `J`; a Python
  `dict` is a `J.obj` carrying an association list of fields in insertion
  order (parsed JSON objects have distinct keys).
* `dictGet` is Python `d[k]` / `k in d` (as an `Option`), `dictInsert` is
  `d[k] = v` (dict semantics: overwrite in place, append when the key is
  new).
* Python `datetime.datetime` values are represented by their displacement
  from `EPOCH = datetime.datetime(1970, 1, 1)`: a whole number of seconds
  (`secs : Int`) plus a nonnegative microsecond part (`usec : Nat`),
  matching the normalized `timedelta` produced by `val - EPOCH`.
* The ambient local time zone used by `datetime.datetime.fromtimestamp`
  is an explicit parameter `tz` (its UTC offset in seconds).
* A client method's observable behavior is a `ClientAction`: either it
  raises `NotImplementedError`, or it issues exactly one POST request
  (method name and form data), or it returns `None` without any network
  activity.
-/

set_option autoImplicit false

/-- A parsed JSON value, the result of `r.json()`. -/
inductive J where
  | null : J
  | bool : Bool → J
  | int : Int → J
  | str : String → J
  | arr : List J → J
  | obj : List (String × J) → J

/-- Python dict lookup on an association list: `d[k]` when the result is
`some`, and `(dictGet d k).isSome` is Python's `k in d`. -/
def dictGet {α : Type} (d : List (String × α)) (k : String) : Option α :=
  match d with
  | [] => none
  | (k', v) :: rest => if k' = k then some v else dictGet rest k

/-- Python dict assignment `d[k] = v`: overwrite the binding of `k` in
place when present (dicts never hold a key twice), append it when absent. -/
def dictInsert {α : Type} (d : List (String × α)) (k : String) (v : α) :
    List (String × α) :=
  match d with
  | [] => [(k, v)]
  | (k', v') :: rest =>
    if k' = k then (k, v) :: rest else (k', v') :: dictInsert rest k v

/-- The envelope unwrapping performed by `Client._request` after
`result = r.json()` (client.py lines 61-68): rule 1 replaces the response
by the value at key `"<method>Result"` when that key exists; rule 2,
checked only inside rule 1's branch, replaces that value by its `"data"`
field when it is a dict containing one. -/
def unwrapEnvelope (method : String) (result : J) : J :=
  match result with
  | J.obj fields =>
    match dictGet fields (method ++ "Result") with
    | some final =>
      match final with
      | J.obj ffields =>
        match dictGet ffields "data" with
        | some d => d
        | none => final
      | _ => final
    | none => J.obj fields
  | other => other

/-- Rule 2 of the envelope unwrapping in isolation (client.py lines
66-67): an object result containing a `"data"` key is replaced by the
value at `"data"`; everything else is left unchanged. -/
def dataUnwrap (v : J) : J :=
  match v with
  | J.obj ffields =>
    match dictGet ffields "data" with
    | some d => d
    | none => J.obj ffields
  | other => other

/-! ### Timestamp conversion (client.py lines 12-27) -/

/-- Python `int(x)` on a real number: truncation toward zero. -/
def pythonInt (q : ℚ) : ℤ := if q < 0 then ⌈q⌉ else ⌊q⌋

/-- A Python `datetime.datetime` value, represented by its displacement
from `EPOCH = datetime.datetime(1970, 1, 1)`: the normalized `timedelta`
`val - EPOCH` contributes `secs` whole seconds (possibly negative) plus
`usec` microseconds with `0 ≤ usec < 1000000`. -/
structure PyDatetime where
  secs : Int
  usec : Nat

/-- `(val - EPOCH).total_seconds()` as an exact rational. -/
def elapsedSeconds (dt : PyDatetime) : ℚ :=
  (dt.secs : ℚ) + (dt.usec : ℚ) / 1000000

/-- The Python values `to_unix_timestamp` may receive: `None`, an `int`
(such as a raw epoch number), a `str`, a date-only `datetime.date`, or a
`datetime.datetime`. -/
inductive PyTime where
  | pyNone
  | pyInt (n : Int)
  | pyStr (s : String)
  | pyDate (y m d : Nat)
  | pyDatetime (dt : PyDatetime)

/-- Python truthiness of a `PyTime` value, as tested by `if val:`:
`None`, `0` and `""` are falsy; `date` and `datetime` objects are always
truthy. -/
def pyTruthy : PyTime → Bool
  | .pyNone => false
  | .pyInt n => n != 0
  | .pyStr s => s != ""
  | .pyDate _ _ _ => true
  | .pyDatetime _ => true

/-- `to_unix_timestamp` (client.py lines 15-23): when `val` is truthy it
must be a `datetime.datetime` or `ValueError` is raised, and converts via
`int((val - EPOCH).total_seconds())`; otherwise it "just bypasses" and
returns `None`. -/
def to_unix_timestamp (val : PyTime) : Except String (Option Int) :=
  if pyTruthy val then
    match val with
    | .pyDatetime dt => .ok (some (pythonInt (elapsedSeconds dt)))
    | _ => .error "input must be of type datetime"
  else
    .ok none

/-- A naive local `datetime.datetime` as produced by
`datetime.datetime.fromtimestamp`: `wallClock` is the seconds-since-epoch
reading of its displayed wall-clock fields in the ambient local zone. -/
structure LocalDateTime where
  wallClock : Int

/-- `from_unix_timestamp` (client.py lines 26-27):
`datetime.datetime.fromtimestamp(val)` renders the POSIX instant `val` in
the ambient local time zone, whose UTC offset in seconds is `tz`. -/
def from_unix_timestamp (tz : Int) (val : Int) : LocalDateTime :=
  ⟨val + tz⟩

/-- The absolute instant (POSIX seconds) a local wall-clock datetime
denotes, given the ambient zone offset `tz`. -/
def LocalDateTime.instant (d : LocalDateTime) (tz : Int) : Int :=
  d.wallClock - tz

/-! ### Requests and client actions -/

/-- A Python value stored in an outbound `data` dict. -/
inductive PVal where
  | null
  | int (n : Int)
  | str (s : String)
  | bool (b : Bool)
  | strList (ss : List String)
  deriving DecidableEq

/-- Python `"%s" % v` for the values that appear in `data` dicts. (For a
list Python would additionally quote each element; no claim exercises the
list rendering, so the quote characters are left out here.) -/
def pyFormat : PVal → String
  | .null => "None"
  | .int n => toString n
  | .str s => s
  | .bool b => if b then "True" else "False"
  | .strList ss => "[" ++ String.intercalate ", " ss ++ "]"

/-- The observable behavior of one client method call: it raises
`NotImplementedError`, or issues exactly one POST for a remote method
with a form-data dict, or returns `None` with no network activity. -/
inductive ClientAction where
  | notImplemented
  | request (method : String) (data : List (String × PVal))
  | noneReturn
  deriving DecidableEq

/-- The network requests an action performs: one for `request`, none for
`notImplemented` (the exception is raised before any network activity)
and none for `noneReturn`. -/
def ClientAction.networkRequests :
    ClientAction → List (String × List (String × PVal))
  | .request m d => [(m, d)]
  | _ => []

/-- The remote method an action contacts, if any. -/
def ClientAction.remoteMethod : ClientAction → Option String
  | .request m _ => some m
  | _ => none

/-- `BASE_URL` (client.py line 10). -/
def BASE_URL : String := "http://flightxml.flightaware.com/json/FlightXML2/"

/-- `os.path.join(BASE_URL, method)` (client.py line 56): since
`BASE_URL` ends in a slash and method names carry none, this is plain
concatenation. -/
def requestUrl (method : String) : String := BASE_URL ++ method

/-- The URL an action posts to, if any. -/
def ClientAction.url : ClientAction → Option String
  | .request m _ => some (requestUrl m)
  | _ => none

/-- Runs an action against a mock JSON response: a `request` parses the
response and unwraps the envelope exactly as `Client._request` does; the
other actions return no value. -/
def ClientAction.run : ClientAction → J → Option J
  | .request m _, response => some (unwrapEnvelope m response)
  | _, _ => none

/-- `MAX_RECORD_LENGTH` (client.py line 11). -/
def MAX_RECORD_LENGTH : Int := 15

/-! ### Client methods (only those the claims are about) -/

namespace Client

/-- `Client.decode_route` (client.py line 230): `raise NotImplementedError`. -/
def decode_route : ClientAction := .notImplemented

/-- `Client.fleet_arrived` (client.py line 290). -/
def fleet_arrived : ClientAction := .notImplemented

/-- `Client.fleet_scheduled` (client.py line 293). -/
def fleet_scheduled : ClientAction := .notImplemented

/-- `Client.flight_info` (client.py lines 296-312): takes arguments but
unconditionally raises `NotImplementedError`. -/
def flight_info (_ident : String) (_how_many : Int) : ClientAction :=
  .notImplemented

/-- `Client.flight_info_ex` (client.py lines 314-327). -/
def flight_info_ex : ClientAction := .notImplemented

/-- `Client.get_historical_track` (client.py line 349). -/
def get_historical_track : ClientAction := .notImplemented

/-- `Client.inbound_flight_info` (client.py line 361). -/
def inbound_flight_info : ClientAction := .notImplemented

/-- `Client.lat_lng_to_distance` (client.py line 371). -/
def lat_lng_to_distance : ClientAction := .notImplemented

/-- `Client.lat_lng_to_heading` (client.py line 374). -/
def lat_lng_to_heading : ClientAction := .notImplemented

/-- `Client.map_flight` (client.py line 377). -/
def map_flight : ClientAction := .notImplemented

/-- `Client.map_flight_ex` (client.py line 380). -/
def map_flight_ex : ClientAction := .notImplemented

/-- `Client.routes_between_airports_ex` (client.py line 432). -/
def routes_between_airports_ex : ClientAction := .notImplemented

/-- `Client.search_birdseye_in_flight` (client.py line 521). -/
def search_birdseye_in_flight : ClientAction := .notImplemented

/-- `Client.search_birdseye_positions` (client.py line 524). -/
def search_birdseye_positions : ClientAction := .notImplemented

/-- `Client.search_count` (client.py line 527). -/
def search_count : ClientAction := .notImplemented

/-- `Client.set_maximum_result_sizes` (client.py line 530). -/
def set_maximum_result_sizes : ClientAction := .notImplemented

/-- `Client.ntaf` (client.py lines 407-414). -/
def ntaf (airport : String) : ClientAction :=
  .request "NTaf" [("airport", .str airport)]

/-- `Client.taf` (client.py lines 416-423): note the request is issued to
the remote method `"NTaf"`. -/
def taf (airport : String) : ClientAction :=
  .request "NTaf" [("airport", .str airport)]

/-- `Client.delete_alert` (client.py lines 574-593): only when
`alert_id is not None` is a `DeleteAlert` request issued; otherwise the
body is skipped and the method returns `None`. -/
def delete_alert (alert_id : Option Int) : ClientAction :=
  match alert_id with
  | some i => .request "DeleteAlert" [("alert_id", .int i)]
  | none => .noneReturn

end Client

/-- `None`-or-`bool` as a dict value. -/
def pvOfOptBool : Option Bool → PVal
  | none => .null
  | some b => .bool b

/-- `None`-or-`int` as a dict value. -/
def pvOfOptInt : Option Int → PVal
  | none => .null
  | some n => .int n

/-- `None`-or-`str` as a dict value. -/
def pvOfOptStr : Option String → PVal
  | none => .null
  | some s => .str s

/-- `if o is not None: d[k] = o`. -/
def maybeInsert {α : Type} (d : List (String × α)) (k : String)
    (o : Option α) : List (String × α) :=
  match o with
  | some v => dictInsert d k v
  | none => d

namespace Client

/-- The `data` dict built by `Client.set_alert` (client.py lines 667-687):
`alert_id`, `enabled`, `max_weekly` are always present; `ident`, `origin`,
`destination`, `aircrafttype`, `date_start`, `date_end` are inserted only
when not `None`; `channels` only when the list is non-empty; finally
`enabled` is re-assigned when not `None`. -/
def set_alert_data (alert_id : Int)
    (ident origin destination aircrafttype : Option String)
    (date_start date_end : Option Int) (channels : List String)
    (enabled : Option Bool) (max_weekly : Int) : List (String × PVal) :=
  let d := [("alert_id", PVal.int alert_id), ("enabled", pvOfOptBool enabled),
            ("max_weekly", PVal.int max_weekly)]
  let d := maybeInsert d "ident" (ident.map PVal.str)
  let d := maybeInsert d "origin" (origin.map PVal.str)
  let d := maybeInsert d "destination" (destination.map PVal.str)
  let d := maybeInsert d "aircrafttype" (aircrafttype.map PVal.str)
  let d := maybeInsert d "date_start" (date_start.map PVal.int)
  let d := maybeInsert d "date_end" (date_end.map PVal.int)
  let d := if channels.length > 0
    then dictInsert d "channels" (PVal.strList channels) else d
  let d := maybeInsert d "enabled" (enabled.map PVal.bool)
  d

/-- `Client.set_alert` (client.py lines 595-689): one `SetAlert` request
carrying `set_alert_data`. -/
def set_alert (alert_id : Int)
    (ident origin destination aircrafttype : Option String)
    (date_start date_end : Option Int) (channels : List String)
    (enabled : Option Bool) (max_weekly : Int) : ClientAction :=
  .request "SetAlert" (set_alert_data alert_id ident origin destination
    aircrafttype date_start date_end channels enabled max_weekly)

/-- The `data` dict built by `Client.airline_flight_schedules`
(client.py lines 108-117): the two dates go through `to_unix_timestamp`
(whose `ValueError` propagates), and every key is present unconditionally
— absent optional arguments yield `None` values in the dict. -/
def airline_flight_schedules_data (start_date end_date : PyTime)
    (origin destination airline flight_number : Option String)
    (how_many offset : Int) : Except String (List (String × PVal)) := do
  let sd ← to_unix_timestamp start_date
  let ed ← to_unix_timestamp end_date
  pure [("startDate", pvOfOptInt sd), ("endDate", pvOfOptInt ed),
        ("origin", pvOfOptStr origin), ("destination", pvOfOptStr destination),
        ("airline", pvOfOptStr airline), ("flightno", pvOfOptStr flight_number),
        ("howMany", PVal.int how_many), ("offset", PVal.int offset)]

end Client

/-- A value held in a result record after post-processing: either a JSON
value from the response or a `datetime` produced by
`from_unix_timestamp`. -/
inductive RVal where
  | json (j : J)
  | time (t : LocalDateTime)

/-- The per-record mutation in the `Client.airline_flight_schedules`
result loop (client.py lines 119-121):
`item["departure_time"] = from_unix_timestamp(item["departuretime"])` and
`item["arrival_time"] = from_unix_timestamp(item["arrivaltime"])`; a
missing or non-integer source field raises (KeyError/TypeError). -/
def processScheduleItem (tz : Int) (item : List (String × RVal)) :
    Except String (List (String × RVal)) :=
  match dictGet item "departuretime" with
  | some (.json (J.int dtime)) =>
    let item := dictInsert item "departure_time"
      (RVal.time (from_unix_timestamp tz dtime))
    match dictGet item "arrivaltime" with
    | some (.json (J.int atime)) =>
      .ok (dictInsert item "arrival_time"
        (RVal.time (from_unix_timestamp tz atime)))
    | _ => .error "KeyError or TypeError on arrivaltime"
  | _ => .error "KeyError or TypeError on departuretime"

/-- The whole result loop of `Client.airline_flight_schedules`
(client.py lines 118-122): each record of the unwrapped result list is
mutated in place; an exception part-way aborts the call. -/
def Client.airline_flight_schedules_post (tz : Int)
    (results : List (List (String × RVal))) :
    Except String (List (List (String × RVal))) :=
  results.mapM (processScheduleItem tz)

/-- The query string built by `Client.search` (client.py lines 515-517):
`query += "-%s %s " % (key, value)` over the mapping in iteration
order. -/
def searchQuery (parameters : List (String × PVal)) : String :=
  parameters.foldl (fun q p => q ++ "-" ++ p.1 ++ " " ++ pyFormat p.2 ++ " ") ""

/-- `Client.search` (client.py lines 461-519): one `Search` request whose
`data` dict carries the built query string alongside `howMany` and
`offset`. -/
def Client.search (parameters : List (String × PVal))
    (how_many offset : Int) : ClientAction :=
  .request "Search" [("query", .str (searchQuery parameters)),
    ("howMany", .int how_many), ("offset", .int offset)]

/-! ### Derived definitions used by the statements -/

/-- Concatenation of a list of strings in order. -/
def concatStrings : List String → String
  | [] => ""
  | s :: rest => s ++ concatStrings rest

/-- A schedule record carrying the integer fields the result loop of
`airline_flight_schedules` reads: `departuretime` and `arrivaltime`. -/
def schedItemReady (item : List (String × RVal)) : Bool :=
  match dictGet item "departuretime", dictGet item "arrivaltime" with
  | some (.json (J.int _)), some (.json (J.int _)) => true
  | _, _ => false

/-! ### Dictionary lemmas -/

theorem dictGet_nil {α : Type} (k : String) :
    dictGet ([] : List (String × α)) k = none := rfl

theorem dictGet_cons {α : Type} (k' k : String) (v : α)
    (rest : List (String × α)) :
    dictGet ((k', v) :: rest) k =
      if k' = k then some v else dictGet rest k := rfl

theorem dictGet_dictInsert {α : Type} (d : List (String × α))
    (k k' : String) (v : α) :
    dictGet (dictInsert d k v) k' =
      if k = k' then some v else dictGet d k' := by
  induction d with
  | nil =>
    by_cases h : k = k' <;> simp [dictInsert, dictGet, h]
  | cons hd tl ih =>
    obtain ⟨k₀, v₀⟩ := hd
    by_cases h0 : k₀ = k
    · subst h0
      by_cases h1 : k₀ = k' <;> simp [dictInsert, dictGet, h1]
    · by_cases h1 : k₀ = k'
      · subst h1
        have hkk : ¬ k = k₀ := fun h => h0 h.symm
        simp [dictInsert, dictGet, h0, hkk]
      · simp [dictInsert, dictGet, h0, h1, ih]

theorem dictGet_dictInsert_ne {α : Type} (d : List (String × α))
    (k k' : String) (v : α) (h : k ≠ k') :
    dictGet (dictInsert d k v) k' = dictGet d k' := by
  rw [dictGet_dictInsert, if_neg h]

theorem dictGet_dictInsert_self {α : Type} (d : List (String × α))
    (k : String) (v : α) :
    dictGet (dictInsert d k v) k = some v := by
  rw [dictGet_dictInsert, if_pos rfl]

theorem dictGet_maybeInsert_ne {α : Type} (d : List (String × α))
    (k k' : String) (o : Option α) (h : k ≠ k') :
    dictGet (maybeInsert d k o) k' = dictGet d k' := by
  cases o with
  | none => rfl
  | some v => exact dictGet_dictInsert_ne d k k' v h

theorem dictGet_maybeInsert_self {α : Type} (d : List (String × α))
    (k : String) (o : Option α) (h : dictGet d k = none) :
    dictGet (maybeInsert d k o) k = o := by
  cases o with
  | none => exact h
  | some v => exact dictGet_dictInsert_self d k v

/-! ### C1 -/

/-- C1: for every method `m` and response object, when the response
contains the key `"<m>Result"` the value at that key becomes the result
and, when that value is itself an object containing `"data"`, the value
at `"data"` replaces it; in particular the mock response
`{FooResult: {data: [1,2,3]}}` yields `[1,2,3]`, `{FooResult: 42}` yields
`42` (rule 2 not triggered on a non-object), and
`{unexpectedKey: "value"}` yields the entire object unchanged. -/
theorem invoke_unwraps_envelope :
    (∀ (m : String) (fields : List (String × J)) (v : J),
      dictGet fields (m ++ "Result") = some v →
      unwrapEnvelope m (J.obj fields) = dataUnwrap v) ∧
    (∀ (ffields : List (String × J)) (d : J),
      dictGet ffields "data" = some d → dataUnwrap (J.obj ffields) = d) ∧
    (∀ ffields : List (String × J),
      dictGet ffields "data" = none → dataUnwrap (J.obj ffields) = J.obj ffields) ∧
    unwrapEnvelope "Foo"
        (J.obj [("FooResult", J.obj [("data", J.arr [J.int 1, J.int 2, J.int 3])])]) =
      J.arr [J.int 1, J.int 2, J.int 3] ∧
    unwrapEnvelope "Foo" (J.obj [("FooResult", J.int 42)]) = J.int 42 ∧
    unwrapEnvelope "Foo" (J.obj [("unexpectedKey", J.str "value")]) =
      J.obj [("unexpectedKey", J.str "value")] := by
  refine ⟨?_, ?_, ?_, rfl, rfl, rfl⟩
  · intro m fields v h
    simp only [unwrapEnvelope, h]
    cases v <;> rfl
  · intro ffields d h
    simp only [dataUnwrap, h]
  · intro ffields h
    simp only [dataUnwrap, h]

/-- C1 witness: the unwrapping rule applied to a concrete response. -/
theorem invoke_unwraps_envelope_witness :
    unwrapEnvelope "Bar" (J.obj [("BarResult", J.int 7)]) = dataUnwrap (J.int 7) :=
  invoke_unwraps_envelope.1 "Bar" [("BarResult", J.int 7)] (J.int 7) rfl

/-! ### C2 -/

/-- C2 counterexample: for method `Foo` and response `{data: 5}` (no
`FooResult` key, a top-level `data` key) the code returns the entire
object, not the value `5` at `data` as the claim requires: rule 2 is
nested inside rule 1's branch (client.py lines 63-67) and is never
checked against the original top-level object. -/
theorem rule2_skipped_without_rule1_cx :
    unwrapEnvelope "Foo" (J.obj [("data", J.int 5)]) = J.obj [("data", J.int 5)] ∧
    unwrapEnvelope "Foo" (J.obj [("data", J.int 5)]) ≠ J.int 5 := by
  refine ⟨rfl, fun h => ?_⟩
  have h' : J.obj [("data", J.int 5)] = J.int 5 := h
  exact J.noConfusion h'

/-- C2 amended: the two unwrap rules are order-dependent but not
independent: rule 2 is checked only against rule 1's output; when the
response lacks the key `"<m>Result"`, the entire top-level object is
returned unchanged, even when it contains a top-level `"data"` key. -/
theorem rule2_only_inside_rule1 :
    ∀ (m : String) (fields : List (String × J)),
      dictGet fields (m ++ "Result") = none →
      unwrapEnvelope m (J.obj fields) = J.obj fields := by
  intro m fields h
  simp only [unwrapEnvelope, h]

/-- C2 amended witness: a response with a top-level `data` key but no
`<m>Result` key comes back unchanged. -/
theorem rule2_only_inside_rule1_witness :
    unwrapEnvelope "Foo" (J.obj [("data", J.arr [J.int 1])]) =
      J.obj [("data", J.arr [J.int 1])] :=
  rule2_only_inside_rule1 "Foo" [("data", J.arr [J.int 1])] rfl

/-! ### C5 -/

/-- C5: every operation declared unimplemented fails unconditionally with
`NotImplementedError` when invoked, performs no network request, and that
outcome is a distinct behavior from issuing a request or returning. -/
theorem unimplemented_methods_raise :
    (Client.decode_route = ClientAction.notImplemented ∧
     Client.fleet_arrived = ClientAction.notImplemented ∧
     Client.fleet_scheduled = ClientAction.notImplemented ∧
     (∀ (ident : String) (how_many : Int),
       Client.flight_info ident how_many = ClientAction.notImplemented) ∧
     Client.flight_info_ex = ClientAction.notImplemented ∧
     Client.get_historical_track = ClientAction.notImplemented ∧
     Client.inbound_flight_info = ClientAction.notImplemented ∧
     Client.lat_lng_to_distance = ClientAction.notImplemented ∧
     Client.lat_lng_to_heading = ClientAction.notImplemented ∧
     Client.map_flight = ClientAction.notImplemented ∧
     Client.map_flight_ex = ClientAction.notImplemented ∧
     Client.routes_between_airports_ex = ClientAction.notImplemented ∧
     Client.search_birdseye_in_flight = ClientAction.notImplemented ∧
     Client.search_birdseye_positions = ClientAction.notImplemented ∧
     Client.search_count = ClientAction.notImplemented ∧
     Client.set_maximum_result_sizes = ClientAction.notImplemented) ∧
    ClientAction.notImplemented.networkRequests = [] ∧
    (∀ (m : String) (d : List (String × PVal)),
      ClientAction.notImplemented ≠ ClientAction.request m d) ∧
    ClientAction.notImplemented ≠ ClientAction.noneReturn := by
  refine ⟨⟨rfl, rfl, rfl, fun _ _ => rfl, rfl, rfl, rfl, rfl, rfl, rfl, rfl,
    rfl, rfl, rfl, rfl, rfl⟩, rfl, fun m d h => ClientAction.noConfusion h,
    fun h => ClientAction.noConfusion h⟩

/-! ### C9 -/

/-- C9: `delete_alert` invoked without an alert id issues no request,
raises nothing and returns nothing; with an id it issues the
`DeleteAlert` request carrying that id and returns the unwrapped
result. -/
theorem delete_alert_behavior :
    Client.delete_alert none = ClientAction.noneReturn ∧
    (Client.delete_alert none).networkRequests = [] ∧
    (∀ resp : J, (Client.delete_alert none).run resp = none) ∧
    (∀ i : Int, Client.delete_alert (some i) =
      ClientAction.request "DeleteAlert" [("alert_id", PVal.int i)]) ∧
    (∀ (i : Int) (resp : J), (Client.delete_alert (some i)).run resp =
      some (unwrapEnvelope "DeleteAlert" resp)) :=
  ⟨rfl, rfl, fun _ => rfl, fun _ => rfl, fun _ _ => rfl⟩

/-! ### C10 -/

/-- C10: `taf` issues its request to the remote method `NTaf`, not
`Taf`: for every airport it builds exactly the request `ntaf` builds
(same URL, same parameter dict) and runs to identical results, and its
target method is not `Taf`. -/
theorem taf_requests_ntaf :
    ∀ airport : String,
      Client.taf airport = Client.ntaf airport ∧
      (Client.taf airport).remoteMethod = some "NTaf" ∧
      (Client.taf airport).url =
        some "http://flightxml.flightaware.com/json/FlightXML2/NTaf" ∧
      (∀ resp : J, (Client.taf airport).run resp = (Client.ntaf airport).run resp) ∧
      (Client.taf airport).remoteMethod ≠ some "Taf" := by
  intro airport
  refine ⟨rfl, rfl, rfl, fun _ => rfl, fun h => ?_⟩
  simp only [Client.taf, ClientAction.remoteMethod, Option.some.injEq] at h
  exact absurd h (by decide)

/-! ### C7 -/

theorem searchQuery_foldl_acc (params : List (String × PVal)) (acc : String) :
    params.foldl (fun q p => q ++ "-" ++ p.1 ++ " " ++ pyFormat p.2 ++ " ") acc =
      acc ++ concatStrings
        (params.map (fun p => "-" ++ p.1 ++ " " ++ pyFormat p.2 ++ " ")) := by
  induction params generalizing acc with
  | nil => simp [concatStrings]
  | cons p rest ih =>
    rw [List.foldl_cons, ih]
    simp [concatStrings, String.append_assoc]

/-- C7: the `search` query string is the concatenation, for each filter
entry in iteration order, of a dash-prefixed key, a space, the formatted
value and a trailing space; the mapping
`{type: "B77*", belowAltitude: 100}` produces exactly
`"-type B77* -belowAltitude 100 "` (trailing space included), and the
string is sent as the single `query` parameter alongside `howMany` and
`offset`. -/
theorem search_query_building :
    searchQuery [("type", PVal.str "B77*"), ("belowAltitude", PVal.int 100)] =
      "-type B77* -belowAltitude 100 " ∧
    (∀ params : List (String × PVal),
      searchQuery params =
        concatStrings
          (params.map (fun p => "-" ++ p.1 ++ " " ++ pyFormat p.2 ++ " "))) ∧
    (∀ (params : List (String × PVal)) (how_many offset : Int),
      Client.search params how_many offset =
        ClientAction.request "Search"
          [("query", PVal.str (searchQuery params)),
           ("howMany", PVal.int how_many), ("offset", PVal.int offset)]) := by
  refine ⟨by decide, fun params => ?_, fun _ _ _ => rfl⟩
  simpa using searchQuery_foldl_acc params ""

/-! ### C3 -/

/-- `int((val - EPOCH).total_seconds())` in closed form: the fractional
microseconds are truncated toward zero (so a pre-epoch instant with a
fractional part truncates up, toward the epoch). -/
theorem pythonInt_elapsedSeconds (dt : PyDatetime) (h : dt.usec < 1000000) :
    pythonInt (elapsedSeconds dt) =
      if dt.secs < 0 ∧ 0 < dt.usec then dt.secs + 1 else dt.secs := by
  obtain ⟨s, u⟩ := dt
  simp only [elapsedSeconds] at *
  rcases Nat.eq_zero_or_pos u with hu | hu
  · subst hu
    simp only [pythonInt, Nat.cast_zero, zero_div, add_zero, lt_self_iff_false,
      and_false, if_false]
    split_ifs <;> simp
  · have h6 : (0 : ℚ) < (u : ℚ) / 1000000 := by positivity
    have h7 : (u : ℚ) / 1000000 < 1 := by
      rw [div_lt_one (by norm_num)]
      exact_mod_cast h
    by_cases hs : s < 0
    · have hs1 : s ≤ -1 := by omega
      have hs1q : (s : ℚ) ≤ -1 := by exact_mod_cast hs1
      have hq : (s : ℚ) + (u : ℚ) / 1000000 < 0 := by linarith
      rw [pythonInt, if_pos hq, if_pos ⟨hs, hu⟩, Int.ceil_eq_iff]
      constructor
      · push_cast
        linarith
      · push_cast
        linarith
    · push_neg at hs
      have hsq : (0 : ℚ) ≤ (s : ℚ) := by exact_mod_cast hs
      have hq : ¬ ((s : ℚ) + (u : ℚ) / 1000000 < 0) := by
        push_neg
        linarith
      rw [pythonInt, if_neg hq, if_neg (by omega), Int.floor_eq_iff]
      constructor
      · linarith
      · linarith

/-- C3 counterexample: the claim requires every non-absent non-datetime
input — "such as 0" — to fail with a validation error, but
`to_unix_timestamp` tests `if val:` (truthiness, client.py line 16), so
the integer `0` is falsy and is silently bypassed to `None` instead of
raising. -/
theorem to_unix_timestamp_zero_bypasses_cx :
    to_unix_timestamp (PyTime.pyInt 0) = Except.ok none ∧
    to_unix_timestamp (PyTime.pyInt 0) ≠
      Except.error "input must be of type datetime" := by
  refine ⟨rfl, fun h => ?_⟩
  have h' : (Except.ok none : Except String (Option Int)) =
      Except.error "input must be of type datetime" := h
  exact Except.noConfusion h'

/-- C3 amended: every *truthy* non-datetime input raises `ValueError`
before any request; falsy non-absent inputs (such as the integer `0` or
the empty string) are treated like an absent input and yield `None`; a
datetime input yields its whole seconds since the epoch with fractional
seconds truncated toward zero. -/
theorem to_unix_timestamp_validation :
    (∀ val : PyTime, pyTruthy val = true →
      (∀ dt : PyDatetime, val ≠ PyTime.pyDatetime dt) →
      to_unix_timestamp val = Except.error "input must be of type datetime") ∧
    (∀ val : PyTime, pyTruthy val = false →
      to_unix_timestamp val = Except.ok none) ∧
    (∀ dt : PyDatetime, dt.usec < 1000000 →
      to_unix_timestamp (PyTime.pyDatetime dt) =
        Except.ok (some (if dt.secs < 0 ∧ 0 < dt.usec
          then dt.secs + 1 else dt.secs))) := by
  refine ⟨fun val h hne => ?_, fun val h => ?_, fun dt h => ?_⟩
  · cases val with
    | pyNone => exact absurd h (by decide)
    | pyInt n => simp [to_unix_timestamp, h]
    | pyStr s => simp [to_unix_timestamp, h]
    | pyDate y m d => simp [to_unix_timestamp, h]
    | pyDatetime dt => exact absurd rfl (hne dt)
  · simp [to_unix_timestamp, h]
  · simp [to_unix_timestamp, pyTruthy, pythonInt_elapsedSeconds dt h]

/-- C3 amended witness: a truthy string raises, a falsy non-`None` input
is bypassed, and a concrete pre-epoch fractional datetime (half a second
before the epoch) truncates toward zero. -/
theorem to_unix_timestamp_validation_witness :
    to_unix_timestamp (PyTime.pyStr "now") =
      Except.error "input must be of type datetime" ∧
    to_unix_timestamp (PyTime.pyInt 0) = Except.ok none ∧
    to_unix_timestamp (PyTime.pyDatetime ⟨-1, 500000⟩) = Except.ok (some 0) := by
  refine ⟨to_unix_timestamp_validation.1 (PyTime.pyStr "now") (by decide)
    (fun dt h => PyTime.noConfusion h),
    to_unix_timestamp_validation.2.1 (PyTime.pyInt 0) (by decide), ?_⟩
  have h := to_unix_timestamp_validation.2.2 ⟨-1, 500000⟩ (by norm_num)
  simpa using h

/-! ### C4 -/

/-- C4: for every whole-second datetime (displacement `secs` from the
epoch, zero microseconds) and every ambient zone offset `tz`,
`to_unix_timestamp` yields exactly `secs`, and the local datetime
`from_unix_timestamp` renders for it denotes the same absolute instant
`secs` (its wall-clock display differs by `tz`); and
`to_unix_timestamp None` returns `None`. -/
theorem timestamp_roundtrip :
    (∀ (tz secs : Int),
      to_unix_timestamp (PyTime.pyDatetime ⟨secs, 0⟩) = Except.ok (some secs) ∧
      (from_unix_timestamp tz secs).instant tz = secs ∧
      (from_unix_timestamp tz secs).wallClock = secs + tz) ∧
    to_unix_timestamp PyTime.pyNone = Except.ok none := by
  refine ⟨fun tz secs => ⟨?_, ?_, rfl⟩, rfl⟩
  · have hp : pythonInt (elapsedSeconds ⟨secs, 0⟩) = secs := by
      simp only [elapsedSeconds, pythonInt, Nat.cast_zero, zero_div, add_zero]
      split_ifs <;> simp
    simp [to_unix_timestamp, pyTruthy, hp]
  · show secs + tz - tz = secs
    omega

/-! ### C6 -/

theorem schedItemReady_spec (item : List (String × RVal))
    (h : schedItemReady item = true) :
    ∃ dtime atime,
      dictGet item "departuretime" = some (RVal.json (J.int dtime)) ∧
      dictGet item "arrivaltime" = some (RVal.json (J.int atime)) := by
  unfold schedItemReady at h
  split at h
  · rename_i dtime atime h1 h2
    exact ⟨dtime, atime, h1, h2⟩
  · exact absurd h (by decide)

theorem processScheduleItem_ok (tz : Int) (item : List (String × RVal))
    (dtime atime : Int)
    (h1 : dictGet item "departuretime" = some (RVal.json (J.int dtime)))
    (h2 : dictGet item "arrivaltime" = some (RVal.json (J.int atime))) :
    processScheduleItem tz item =
      Except.ok (dictInsert (dictInsert item "departure_time"
        (RVal.time (from_unix_timestamp tz dtime))) "arrival_time"
        (RVal.time (from_unix_timestamp tz atime))) := by
  have h2' : dictGet (dictInsert item "departure_time"
      (RVal.time (from_unix_timestamp tz dtime))) "arrivaltime" =
      some (RVal.json (J.int atime)) := by
    rw [dictGet_dictInsert_ne _ _ _ _ (by decide)]
    exact h2
  simp only [processScheduleItem, h1, h2']

/-- C6: for the schedules operation, every record of the unwrapped
result list that carries integer `departuretime` and `arrivaltime`
fields gains `departure_time` and `arrival_time` fields equal to
`from_unix_timestamp` of those two epoch values, while the original
integer fields remain present alongside them. -/
theorem schedules_add_datetime_fields :
    ∀ (tz : Int) (results : List (List (String × RVal))),
      (∀ item ∈ results, schedItemReady item = true) →
      ∃ results',
        Client.airline_flight_schedules_post tz results = Except.ok results' ∧
        List.Forall₂ (fun item final =>
          ∀ dtime atime,
            dictGet item "departuretime" = some (RVal.json (J.int dtime)) →
            dictGet item "arrivaltime" = some (RVal.json (J.int atime)) →
            dictGet final "departure_time" =
              some (RVal.time (from_unix_timestamp tz dtime)) ∧
            dictGet final "arrival_time" =
              some (RVal.time (from_unix_timestamp tz atime)) ∧
            dictGet final "departuretime" = some (RVal.json (J.int dtime)) ∧
            dictGet final "arrivaltime" = some (RVal.json (J.int atime)))
          results results' := by
  intro tz results
  induction results with
  | nil =>
    intro _
    exact ⟨[], rfl, List.Forall₂.nil⟩
  | cons item rest ih =>
    intro h
    have hitem : schedItemReady item = true := h item (by simp)
    obtain ⟨dtime, atime, h1, h2⟩ := schedItemReady_spec item hitem
    obtain ⟨rest', hrestEq, hrestF⟩ := ih (fun i hi => h i (by simp [hi]))
    refine ⟨dictInsert (dictInsert item "departure_time"
      (RVal.time (from_unix_timestamp tz dtime))) "arrival_time"
      (RVal.time (from_unix_timestamp tz atime)) :: rest', ?_, ?_⟩
    · unfold Client.airline_flight_schedules_post at hrestEq ⊢
      rw [List.mapM_cons, processScheduleItem_ok tz item dtime atime h1 h2,
        hrestEq]
      rfl
    · refine List.Forall₂.cons ?_ hrestF
      intro dtime' atime' h1' h2'
      rw [h1] at h1'
      rw [h2] at h2'
      simp only [Option.some.injEq, RVal.json.injEq, J.int.injEq] at h1' h2'
      subst h1'
      subst h2'
      refine ⟨?_, ?_, ?_, ?_⟩
      · rw [dictGet_dictInsert_ne _ _ _ _ (by decide),
          dictGet_dictInsert_self]
      · rw [dictGet_dictInsert_self]
      · rw [dictGet_dictInsert_ne _ _ _ _ (by decide),
          dictGet_dictInsert_ne _ _ _ _ (by decide)]
        exact h1
      · rw [dictGet_dictInsert_ne _ _ _ _ (by decide),
          dictGet_dictInsert_ne _ _ _ _ (by decide)]
        exact h2

/-- C6 witness: the post-processing applied to the concrete record
`{departuretime: 0, arrivaltime: 3600}` with zone offset 0. -/
theorem schedules_add_datetime_fields_witness :
    ∃ results',
      Client.airline_flight_schedules_post 0
        [[("departuretime", RVal.json (J.int 0)),
          ("arrivaltime", RVal.json (J.int 3600))]] = Except.ok results' ∧
      List.Forall₂ (fun item final =>
        ∀ dtime atime,
          dictGet item "departuretime" = some (RVal.json (J.int dtime)) →
          dictGet item "arrivaltime" = some (RVal.json (J.int atime)) →
          dictGet final "departure_time" =
            some (RVal.time (from_unix_timestamp 0 dtime)) ∧
          dictGet final "arrival_time" =
            some (RVal.time (from_unix_timestamp 0 atime)) ∧
          dictGet final "departuretime" = some (RVal.json (J.int dtime)) ∧
          dictGet final "arrivaltime" = some (RVal.json (J.int atime)))
        [[("departuretime", RVal.json (J.int 0)),
          ("arrivaltime", RVal.json (J.int 3600))]] results' :=
  schedules_add_datetime_fields 0
    [[("departuretime", RVal.json (J.int 0)),
      ("arrivaltime", RVal.json (J.int 3600))]]
    (by decide)

/-! ### C8 -/

/-- C8 counterexample: the claim extends the omit-when-absent rule to the
optional fields of `airline_flight_schedules`, but that method builds its
dict with every key unconditionally (client.py lines 108-117): with no
optional argument supplied, `origin` is present in the outbound parameter
mapping bound to `None` rather than omitted. -/
theorem afs_null_optionals_cx :
    Client.airline_flight_schedules_data PyTime.pyNone PyTime.pyNone
        none none none none 15 0 =
      Except.ok [("startDate", PVal.null), ("endDate", PVal.null),
        ("origin", PVal.null), ("destination", PVal.null),
        ("airline", PVal.null), ("flightno", PVal.null),
        ("howMany", PVal.int 15), ("offset", PVal.int 0)] ∧
    dictGet [("startDate", PVal.null), ("endDate", PVal.null),
        ("origin", PVal.null), ("destination", PVal.null),
        ("airline", PVal.null), ("flightno", PVal.null),
        ("howMany", PVal.int 15), ("offset", PVal.int 0)] "origin" =
      some PVal.null := ⟨rfl, rfl⟩

/-- C8 amended: `set_alert` omits each of its six optional parameters
from the outbound mapping exactly when the caller did not supply it, and
sends `channels` exactly when the supplied list is non-empty; but
`airline_flight_schedules` always includes its optional fields `origin`,
`destination`, `airline`, `flightno` in the mapping, bound to `None` when
absent (only the external form-encoding transport later drops
`None`-valued fields from the request body). -/
theorem optional_params_omitted :
    (∀ (alert_id : Int) (ident origin destination aircrafttype : Option String)
       (date_start date_end : Option Int) (channels : List String)
       (enabled : Option Bool) (max_weekly : Int),
      dictGet (Client.set_alert_data alert_id ident origin destination
          aircrafttype date_start date_end channels enabled max_weekly)
          "ident" = ident.map PVal.str ∧
      dictGet (Client.set_alert_data alert_id ident origin destination
          aircrafttype date_start date_end channels enabled max_weekly)
          "origin" = origin.map PVal.str ∧
      dictGet (Client.set_alert_data alert_id ident origin destination
          aircrafttype date_start date_end channels enabled max_weekly)
          "destination" = destination.map PVal.str ∧
      dictGet (Client.set_alert_data alert_id ident origin destination
          aircrafttype date_start date_end channels enabled max_weekly)
          "aircrafttype" = aircrafttype.map PVal.str ∧
      dictGet (Client.set_alert_data alert_id ident origin destination
          aircrafttype date_start date_end channels enabled max_weekly)
          "date_start" = date_start.map PVal.int ∧
      dictGet (Client.set_alert_data alert_id ident origin destination
          aircrafttype date_start date_end channels enabled max_weekly)
          "date_end" = date_end.map PVal.int ∧
      dictGet (Client.set_alert_data alert_id ident origin destination
          aircrafttype date_start date_end channels enabled max_weekly)
          "channels" = (if channels.length > 0
            then some (PVal.strList channels) else none)) ∧
    (∀ (alert_id : Int) (ident origin destination aircrafttype : Option String)
       (date_start date_end : Option Int) (channels : List String)
       (enabled : Option Bool) (max_weekly : Int),
      Client.set_alert alert_id ident origin destination aircrafttype
          date_start date_end channels enabled max_weekly =
        ClientAction.request "SetAlert" (Client.set_alert_data alert_id ident
          origin destination aircrafttype date_start date_end channels
          enabled max_weekly)) ∧
    (∀ (start_date end_date : PyTime)
       (origin destination airline flight_number : Option String)
       (how_many offset : Int) (sdv edv : Option Int),
      to_unix_timestamp start_date = Except.ok sdv →
      to_unix_timestamp end_date = Except.ok edv →
      Client.airline_flight_schedules_data start_date end_date origin
          destination airline flight_number how_many offset =
        Except.ok [("startDate", pvOfOptInt sdv), ("endDate", pvOfOptInt edv),
          ("origin", pvOfOptStr origin), ("destination", pvOfOptStr destination),
          ("airline", pvOfOptStr airline), ("flightno", pvOfOptStr flight_number),
          ("howMany", PVal.int how_many), ("offset", PVal.int offset)] ∧
      dictGet [("startDate", pvOfOptInt sdv), ("endDate", pvOfOptInt edv),
          ("origin", pvOfOptStr origin), ("destination", pvOfOptStr destination),
          ("airline", pvOfOptStr airline), ("flightno", pvOfOptStr flight_number),
          ("howMany", PVal.int how_many), ("offset", PVal.int offset)]
          "origin" = some (pvOfOptStr origin) ∧
      dictGet [("startDate", pvOfOptInt sdv), ("endDate", pvOfOptInt edv),
          ("origin", pvOfOptStr origin), ("destination", pvOfOptStr destination),
          ("airline", pvOfOptStr airline), ("flightno", pvOfOptStr flight_number),
          ("howMany", PVal.int how_many), ("offset", PVal.int offset)]
          "destination" = some (pvOfOptStr destination) ∧
      dictGet [("startDate", pvOfOptInt sdv), ("endDate", pvOfOptInt edv),
          ("origin", pvOfOptStr origin), ("destination", pvOfOptStr destination),
          ("airline", pvOfOptStr airline), ("flightno", pvOfOptStr flight_number),
          ("howMany", PVal.int how_many), ("offset", PVal.int offset)]
          "airline" = some (pvOfOptStr airline) ∧
      dictGet [("startDate", pvOfOptInt sdv), ("endDate", pvOfOptInt edv),
          ("origin", pvOfOptStr origin), ("destination", pvOfOptStr destination),
          ("airline", pvOfOptStr airline), ("flightno", pvOfOptStr flight_number),
          ("howMany", PVal.int how_many), ("offset", PVal.int offset)]
          "flightno" = some (pvOfOptStr flight_number)) := by
  refine ⟨?_, fun _ _ _ _ _ _ _ _ _ _ => rfl, ?_⟩
  · intro alert_id ident origin destination aircrafttype date_start date_end
      channels enabled max_weekly
    by_cases hc : channels.length > 0 <;>
      simp [Client.set_alert_data, hc, dictGet_maybeInsert_ne,
        dictGet_maybeInsert_self, dictGet_dictInsert_ne,
        dictGet_dictInsert_self, dictGet]
  · intro start_date end_date origin destination airline flight_number
      how_many offset sdv edv h1 h2
    refine ⟨?_, rfl, rfl, rfl, rfl⟩
    simp only [Client.airline_flight_schedules_data, h1, h2]
    rfl

/-- C8 amended witness: a concrete `set_alert` call with only `ident`
supplied and empty channels, and a concrete schedules call with no
optional arguments. -/
theorem optional_params_omitted_witness :
    dictGet (Client.set_alert_data 0 (some "SWA2558") none none none
        none none [] (some true) 1000) "ident" = some (PVal.str "SWA2558") ∧
    dictGet (Client.set_alert_data 0 (some "SWA2558") none none none
        none none [] (some true) 1000) "origin" = none ∧
    dictGet (Client.set_alert_data 0 (some "SWA2558") none none none
        none none [] (some true) 1000) "channels" = none ∧
    dictGet [("startDate", pvOfOptInt none), ("endDate", pvOfOptInt none),
        ("origin", pvOfOptStr none), ("destination", pvOfOptStr none),
        ("airline", pvOfOptStr none), ("flightno", pvOfOptStr none),
        ("howMany", PVal.int 15), ("offset", PVal.int 0)]
        "origin" = some (pvOfOptStr none) := by
  have hs := optional_params_omitted.1 0 (some "SWA2558") none none none
    none none [] (some true) 1000
  have ha := optional_params_omitted.2.2 PyTime.pyNone PyTime.pyNone
    none none none none 15 0 none none rfl rfl
  exact ⟨hs.1, hs.2.1, hs.2.2.2.2.2.2, ha.2.1⟩
